import Mathlib

set_option maxHeartbeats 1000000

/- Shallow embedding of the iPancreas Dexcom conversion pipeline
   (`dexcom/convert_to_JSON.py`).  Python datetimes are modelled as a
   calendar record with exact integer arithmetic; Python `timedelta`
   values as a (days, seconds) pair normalised the way CPython
   normalises them (days may be negative, 0 <= seconds < 86400);
   the Python floats arising from `seconds/3600` as exact rationals
   (for the second counts occurring here the float results coincide
   with the exact rational ones); Python `round` as round-half-to-even;
   a raised exception as an `Except.error`.  The interactive `input()`
   calls of `_get_timezone` are modelled as a list of scripted
   responses consumed in order, and the `pytz` timezone database as a
   partial map from timezone names to UTC-offset-in-seconds functions
   of the (naive) datetime, with `none` standing for
   `UnknownTimeZoneError`. -/

/-- A parsed naive `datetime.datetime` at second precision. -/
structure DexDateTime where
  year : Nat
  month : Nat
  day : Nat
  hour : Nat
  minute : Nat
  second : Nat
deriving DecidableEq, Repr

def digitVal (c : Char) : Nat := c.toNat - '0'.toNat

def isLeapYear (y : Nat) : Bool :=
  (y % 4 == 0 && y % 100 != 0) || (y % 400 == 0)

def daysInMonth (y m : Nat) : Nat :=
  if m = 2 then (if isLeapYear y then 29 else 28)
  else if m = 4 ∨ m = 6 ∨ m = 9 ∨ m = 11 then 30
  else 31

/-- `datetime.strptime(s, '%Y-%m-%d %H:%M:%S')` on the zero-padded
fixed-width strings produced by Dexcom exports (the only shape that
occurs in this pipeline); `none` models the raised `ValueError`. -/
def parseDatetimeFixed (str : String) : Option DexDateTime :=
  match str.data with
  | [y1, y2, y3, y4, s1, mo1, mo2, s2, d1, d2, s3, h1, h2, s4, mi1, mi2, s5, se1, se2] =>
    if y1.isDigit ∧ y2.isDigit ∧ y3.isDigit ∧ y4.isDigit ∧
       mo1.isDigit ∧ mo2.isDigit ∧ d1.isDigit ∧ d2.isDigit ∧
       h1.isDigit ∧ h2.isDigit ∧ mi1.isDigit ∧ mi2.isDigit ∧
       se1.isDigit ∧ se2.isDigit ∧
       s1 = '-' ∧ s2 = '-' ∧ s3 = ' ' ∧ s4 = ':' ∧ s5 = ':' then
      let year := ((digitVal y1 * 10 + digitVal y2) * 10 + digitVal y3) * 10 + digitVal y4
      let month := digitVal mo1 * 10 + digitVal mo2
      let day := digitVal d1 * 10 + digitVal d2
      let hour := digitVal h1 * 10 + digitVal h2
      let minute := digitVal mi1 * 10 + digitVal mi2
      let second := digitVal se1 * 10 + digitVal se2
      if 1 ≤ month ∧ month ≤ 12 ∧ 1 ≤ day ∧ day ≤ daysInMonth year month ∧
         hour ≤ 23 ∧ minute ≤ 59 ∧ second ≤ 59 then
        some ⟨year, month, day, hour, minute, second⟩
      else none
    else none
  | _ => none

/-- `parse_datetime` (convert_to_JSON.py lines 43-51): try the standard
format; on `ValueError` retry on `dt_str[:-4]` (dropping the
milliseconds of Seven Plus rows).  `none` models a `ValueError` raised
by the second attempt as well. -/
def parse_datetime (s : String) : Option DexDateTime :=
  match parseDatetimeFixed s with
  | some d => some d
  | none => parseDatetimeFixed (s.dropRight 4)

/-- Civil-calendar day number of a date (days since 1970-01-01), the
standard days-from-civil computation; this is the day arithmetic
underlying Python `datetime` subtraction. -/
def daysFromCivil (d : DexDateTime) : Int :=
  let y : Int := if d.month ≤ 2 then (d.year : Int) - 1 else (d.year : Int)
  let era : Int := Int.tdiv (if 0 ≤ y then y else y - 399) 400
  let yoe : Int := y - era * 400
  let mp : Int := Int.emod ((d.month : Int) + 9) 12
  let doy : Int := Int.tdiv (153 * mp + 2) 5 + (d.day : Int) - 1
  let doe : Int := yoe * 365 + Int.tdiv yoe 4 - Int.tdiv yoe 100 + doy
  era * 146097 + doe - 719468

/-- Absolute second count of a datetime (seconds since the epoch);
differences of these are exactly Python `datetime` differences. -/
def toSeconds (d : DexDateTime) : Int :=
  daysFromCivil d * 86400 + (d.hour : Int) * 3600 + (d.minute : Int) * 60 + (d.second : Int)

/-- A Python `datetime.timedelta`, normalised as CPython normalises it:
`days` may be negative, `0 ≤ seconds < 86400`. -/
structure PyTimedelta where
  days : Int
  seconds : Nat
deriving DecidableEq, Repr

/-- Build a normalised timedelta from a total second count (CPython
floor-divides into days and a nonnegative second remainder). -/
def mkTimedelta (total : Int) : PyTimedelta :=
  { days := Int.ediv total 86400, seconds := (Int.emod total 86400).toNat }

/-- `datetime_difference(d1, d2)` (convert_to_JSON.py lines 33-36):
return `d2 - d1` as a Python timedelta. -/
def datetime_difference (d1 d2 : DexDateTime) : PyTimedelta :=
  mkTimedelta (toSeconds d2 - toSeconds d1)

/-- Python 3 `round` on an exact rational: round half to even. -/
def roundHalfEven (q : Rat) : Int :=
  if q - ((Rat.floor q : Int) : Rat) < 1/2 then Rat.floor q
  else if 1/2 < q - ((Rat.floor q : Int) : Rat) then Rat.floor q + 1
  else if Rat.floor q % 2 = 0 then Rat.floor q else Rat.floor q + 1

/-- Round half away from zero (the rounding named by the spec). -/
def roundHalfAway (q : Rat) : Int :=
  if q < 0 then -(Rat.floor (-q + 1/2)) else Rat.floor (q + 1/2)

/-- `diff['hours']` (convert_to_JSON.py lines 302-304): the raw clock
difference in whole hours the engine uses for drift classification,
`round(-(internal - user).seconds / 3600)` with `datetime_difference`
called as `datetime_difference(user_time, internal_time)`. -/
def diff_hours (user_dt internal_dt : DexDateTime) : Int :=
  roundHalfEven (-(((datetime_difference user_dt internal_dt).seconds : Int) : Rat) / 3600)

/-- The clock difference the spec's words prescribe:
`round(-(displayTime - internalTime) in whole hours)` with
round-half-away-from-zero on the fractional-hour difference. -/
def spec_diff_hours (user_dt internal_dt : DexDateTime) : Int :=
  roundHalfAway (-(((toSeconds user_dt - toSeconds internal_dt : Int)) : Rat) / 3600)

def pad2 (n : Nat) : String := if n < 10 then "0" ++ toString n else toString n

def pad4 (n : Nat) : String :=
  if n < 10 then "000" ++ toString n
  else if n < 100 then "00" ++ toString n
  else if n < 1000 then "0" ++ toString n
  else toString n

/-- `datetime.isoformat()` for a naive second-precision datetime. -/
def isoformat (d : DexDateTime) : String :=
  pad4 d.year ++ "-" ++ pad2 d.month ++ "-" ++ pad2 d.day ++ "T" ++
  pad2 d.hour ++ ":" ++ pad2 d.minute ++ ":" ++ pad2 d.second

/-- The `+HH:MM` / `-HH:MM` suffix `isoformat` prints for a
`DexcomTZ(offset)` fixed-offset tzinfo (offset in hours; a seconds
part is printed only when nonzero, as CPython does). -/
def utcoffsetSuffix (off : Rat) : String :=
  let totalSecs : Int := Rat.floor (off * 3600)
  let sign := if totalSecs < 0 then "-" else "+"
  let a := totalSecs.natAbs
  let hh := a / 3600
  let mm := (a % 3600) / 60
  let ss := a % 60
  sign ++ pad2 hh ++ ":" ++ pad2 mm ++ (if ss ≠ 0 then ":" ++ pad2 ss else "")

/-- `isoformat()` of a datetime carrying `DexcomTZ(off)` (the class at
convert_to_JSON.py lines 25-31). -/
def isoWithOffset (d : DexDateTime) (off : Rat) : String :=
  isoformat d ++ utcoffsetSuffix off

/-- Python string `<` (lexicographic by code point), as used on the raw
`internal_time` strings in `bloodhound`. -/
def strLtB : List Char → List Char → Bool
  | [], [] => false
  | [], _ :: _ => true
  | _ :: _, [] => false
  | a :: as, b :: bs => if a < b then true else if b < a then false else strLtB as bs

def pyStrLt (s t : String) : Bool := strLtB s.data t.data

/- ===== the Dexcom reading data model ===== -/

/-- One entry of the `annotations` list attached by `_set_value`. -/
structure Annotation where
  code : String
  threshold : Nat
  value : String
deriving DecidableEq, Repr

/-- The dynamic state of the `annotations` attribute: never assigned
(malformed raw value), assigned `None`, or assigned a list. -/
inductive AnnField
  | unset
  | pynone
  | anns (l : List Annotation)
deriving DecidableEq, Repr

/-- The exception raised by `_set_value` for an in-range-parse failure
(`Exception('Dexcom value out of range:', value)`). -/
inductive DexcomValueError
  | outOfRange (v : Int)
deriving DecidableEq, Repr

/-- Python `int(s)` on a string: optional surrounding whitespace,
optional sign, then decimal digits (digit-group underscores and
non-ASCII digits do not occur in this data and are not modelled);
`none` models the raised `ValueError`. -/
def parseDigitsAux : List Char → Nat → Option Nat
  | [], acc => some acc
  | c :: cs, acc => if c.isDigit then parseDigitsAux cs (acc * 10 + digitVal c) else none

def parseDigits (cs : List Char) : Option Nat :=
  match cs with
  | [] => none
  | _ => parseDigitsAux cs 0

def pyParseInt (s : String) : Option Int :=
  let cs := ((s.data.dropWhile Char.isWhitespace).reverse.dropWhile Char.isWhitespace).reverse
  match cs with
  | '-' :: rest => (parseDigits rest).map (fun n => -(n : Int))
  | '+' :: rest => (parseDigits rest).map (fun n => (n : Int))
  | _ => (parseDigits cs).map (fun n => (n : Int))

/-- `Dexcom._set_value` (convert_to_JSON.py lines 70-94): the integer
value and the `annotations` attribute state for each possible raw
Dexcom sensor value; the out-of-range raise is an `Except.error`, and
a raw value that is neither an integer nor `Low`/`High` falls off the
end of the function (value `None`, `annotations` never assigned). -/
def _set_value (raw : String) : Except DexcomValueError (Option Int × AnnField) :=
  match pyParseInt raw with
  | some v =>
    if 20 ≤ v ∧ v ≤ 600 then .ok (some v, .pynone)
    else .error (.outOfRange v)
  | none =>
    if raw = "Low" then .ok (some 39, .anns [{ code := "bg/out-of-range", threshold := 40, value := "low" }])
    else if raw = "High" then .ok (some 401, .anns [{ code := "bg/out-of-range", threshold := 400, value := "high" }])
    else .ok (none, .unset)

/-- A `Dexcom` reading object (convert_to_JSON.py lines 53-68), with
the fields mutated later by `bloodhound`/`enlighten_datetime`
modelled as optional/initially-empty fields. -/
structure Dexcom where
  user_time : String
  internal_time : String
  device_gen : String
  serial : String
  value : Option Int
  annotations : AnnField
  subtype : String
  type : String := "bg"
  time : String := ""
  display_offset : Option Rat := none
  timezone : Option String := none
deriving DecidableEq, Repr

/-- `DexcomSensor.__init__` via `Dexcom.__init__`: constructing a
sensor reading from the row fields; an out-of-range value propagates
the exception (the reading is rejected). -/
def mkDexcomSensor (user internal generation serial raw : String) :
    Except DexcomValueError Dexcom :=
  match _set_value raw with
  | .error e => .error e
  | .ok (v, ann) =>
    .ok { user_time := user, internal_time := internal, device_gen := generation,
          serial := serial, value := v, annotations := ann, subtype := "sensor" }

/- ===== runtime errors of the engine ===== -/

/-- Uncaught Python exceptions that can escape the bloodhound run. -/
inductive RunError
  | valueError
  | typeError
  | nameError
  | attributeError
  | unknownTimeZoneError
  | eofError
deriving DecidableEq, Repr

/-- `enlighten_datetime` (convert_to_JSON.py lines 38-41): set
`obj.time` to the display timestamp reinterpreted with the
fixed-offset tzinfo `DexcomTZ(obj.display_offset)`; accessing a
never-assigned `display_offset` is an `AttributeError`, an unparsable
timestamp a `ValueError`. -/
def enlighten_datetime (obj : Dexcom) : Except RunError Dexcom :=
  match obj.display_offset with
  | none => .error .attributeError
  | some off =>
    match parse_datetime obj.user_time with
    | none => .error .valueError
    | some du => .ok { obj with time := isoWithOffset du off }

/- ===== the offset change log ===== -/

/-- One offset-change record, with the fields `_add_offset_change`
writes (`effective_at` flattened into its two components). -/
structure ChangeRecord where
  display_offset : Rat
  internal_time : String
  display_time : String
  reason : String
  subtype : String
  timezone : String
  type : String
deriving DecidableEq, Repr

/-- The filter in `DexcomJSON.__init__` (lines 164-168): keep only
loaded change records whose `effective_at.internal_time` is non-empty. -/
def loadOffsetChanges (changes : List ChangeRecord) : List ChangeRecord :=
  changes.filter (fun c => c.internal_time != "")

/-- The record list written to `bloodhound.json` (lines 337-340):
stable-sorted ascending by `effective_at.internal_time`, then
reversed. -/
def persistChanges (changes : List ChangeRecord) : List ChangeRecord :=
  (changes.mergeSort (fun a b => !(pyStrLt b.internal_time a.internal_time))).reverse

/- ===== the timezone resolver ===== -/

/-- The pytz timezone database: a name either resolves to a
UTC-offset-in-seconds function of the (naive) display datetime, or is
unknown (`UnknownTimeZoneError`). -/
abbrev TZDatabase := String → Option (DexDateTime → Int)

/-- The offset in hours `_get_timezone` computes (lines 219-229):
`td.days * 24 + td.seconds / 3600` on the zone's utcoffset timedelta,
then the confirmed-DST reversal of plus or minus one hour. -/
def resolver_offset (utcoffset : DexDateTime → Int) (du : DexDateTime) (dst : String) : Rat :=
  let td := mkTimedelta (utcoffset du)
  let offset : Rat := (td.days : Rat) * 24 + (td.seconds : Rat) / 3600
  if dst = "y" then (if du.month > 6 then offset + 1 else offset - 1) else offset

/-- The dict `_get_timezone` returns; `offset` is `Option` because
`_add_offset_change` tests it against `None` (the test is dead in this
variant: `_get_timezone` always fills a number in). -/
structure TZRes where
  timezone : String
  offset : Option Rat
  type : String
deriving Repr

/-- `DexcomJSON._get_timezone` (lines 214-237): consume one scripted
(timezone-name, dst-answer) response, validate the name against the
database (an unknown name raises `UnknownTimeZoneError` — there is no
handler anywhere in the call chain), compute the offset at the
reading's display time, and apply the confirmed-DST reversal. -/
def _get_timezone (tzdb : TZDatabase) (responses : List (String × String))
    (obj : Dexcom) (change_type : String) :
    Except RunError (TZRes × List (String × String)) :=
  match responses with
  | [] => .error .eofError
  | (res, dst) :: rest =>
    match tzdb res with
    | none => .error .unknownTimeZoneError
    | some utcoffset =>
      match parse_datetime obj.user_time with
      | none => .error .valueError
      | some du =>
        let change_type' := if dst = "y" then change_type ++ "; shift to/from DST" else change_type
        .ok ({ timezone := res, offset := some (resolver_offset utcoffset du dst), type := change_type' }, rest)

/-- `DexcomJSON._add_offset_change` (lines 182-205): resolve a fresh
offset; if the resolver filled in no offset, return `None` (append
nothing); otherwise append a new change record — but only when
`notstart` is set (the bootstrap call leaves the log untouched) — and
return the (offset, timezone) pair.  The result triple is (returned
value, updated log, remaining scripted responses). -/
def _add_offset_change (tzdb : TZDatabase) (responses : List (String × String))
    (log : List ChangeRecord) (diff_in_hours : Int) (obj : Dexcom)
    (change_type : String) (notstart : Bool) :
    Except RunError (Option (Rat × String) × List ChangeRecord × List (String × String)) :=
  match _get_timezone tzdb responses obj change_type with
  | .error e => .error e
  | .ok (tz_res, rest) =>
    match tz_res.offset with
    | none => .ok (none, log, rest)
    | some offset =>
      let timezone := tz_res.timezone
      if notstart then
        match parse_datetime obj.internal_time, parse_datetime obj.user_time with
        | some di, some du =>
          .ok (some (offset, timezone),
               log ++ [{ display_offset := offset,
                         internal_time := isoformat di, display_time := isoformat du,
                         reason := tz_res.type, subtype := "timezone offset",
                         timezone := timezone, type := "meta" }],
               rest)
        | _, _ => .error .valueError
      else
        .ok (some (offset, timezone), log, rest)

/-- `DexcomJSON._get_offset_change` (lines 207-212): first change
record whose `effective_at.internal_time` equals the isoformat of the
parsed `effective_at` argument. -/
def _get_offset_change (log : List ChangeRecord) (effective_at : String) :
    Except RunError (Option ChangeRecord) :=
  match parse_datetime effective_at with
  | none => .error .valueError
  | some d => .ok (log.find? (fun c => c.internal_time == isoformat d))

/- ===== the bloodhound engine ===== -/

/-- The loop state of `bloodhound` (lines 282-332): the Python local
variables, with `readings` accumulating the processed (mutated)
`Dexcom` objects most-recently-processed first.  `offsets`,
`initial_difference`, `current_difference` and `last_obj` are
modelled as `Option` because Python leaves them unbound / falsy until
first assignment. -/
structure BHState where
  readings : List Dexcom
  offset_changes : List ChangeRecord
  responses : List (String × String)
  initial_difference : Option Int
  current_difference : Option Int
  current_effective_at : String
  offsets : Option (Rat × String)
  last_obj : Option Dexcom
deriving Repr

/-- One iteration of the `bloodhound` loop body (lines 290-332) on the
reading `obj`. -/
def bloodhoundStep (tzdb : TZDatabase) (effective_ats : List String)
    (st : BHState) (obj : Dexcom) : Except RunError BHState :=
  match parse_datetime obj.internal_time with
  | none => .error .valueError
  | some din =>
    let branch : Except RunError BHState :=
      if isoformat din ∈ effective_ats then
        match _get_offset_change st.offset_changes obj.internal_time with
        | .error e => .error e
        | .ok none => .error .typeError
        | .ok (some change) =>
          .ok { st with current_effective_at := obj.internal_time,
                        offsets := some (change.display_offset, change.timezone) }
      else if pyStrLt obj.internal_time st.current_effective_at then
        match _get_offset_change st.offset_changes st.current_effective_at with
        | .error e => .error e
        | .ok none => .error .typeError
        | .ok (some change) =>
          .ok { st with offsets := some (change.display_offset, change.timezone) }
      else
        match parse_datetime obj.user_time with
        | none => .error .valueError
        | some du =>
          let diffH : Int := diff_hours du din
          match st.initial_difference with
          | none =>
            match _add_offset_change tzdb st.responses st.offset_changes diffH obj "input by user" false with
            | .error e => .error e
            | .ok (offs, log, rest) =>
              .ok { st with offsets := offs, offset_changes := log, responses := rest,
                            initial_difference := some diffH, current_difference := some diffH }
          | some _ =>
            match st.last_obj with
            | none => .error .nameError
            | some last =>
              if obj.serial ≠ last.serial ∧ obj.device_gen = "G4Platinum" then
                match _add_offset_change tzdb st.responses st.offset_changes diffH obj "changed G4 Platinum device" true with
                | .error e => .error e
                | .ok (offs, log, rest) =>
                  .ok { st with offsets := offs, offset_changes := log, responses := rest,
                                current_difference := some diffH }
              else if obj.device_gen ≠ last.device_gen then
                match _add_offset_change tzdb st.responses st.offset_changes diffH obj "changed to Seven Plus device" true with
                | .error e => .error e
                | .ok (offs, log, rest) =>
                  .ok { st with offsets := offs, offset_changes := log, responses := rest,
                                current_difference := some diffH }
              else
                match st.current_difference with
                | none => .error .nameError
                | some cd =>
                  if diffH ≠ cd then
                    match _add_offset_change tzdb st.responses st.offset_changes diffH obj "inferred via bloodhound protocol" true with
                    | .error e => .error e
                    | .ok (offs, log, rest) =>
                      .ok { st with offsets := offs, offset_changes := log, responses := rest,
                                    current_difference := some diffH }
                  else .ok st
    match branch with
    | .error e => .error e
    | .ok st' =>
      match st'.offsets with
      | some (o, tzn) =>
        match enlighten_datetime { obj with display_offset := some o, timezone := some tzn } with
        | .error e => .error e
        | .ok obj' => .ok { st' with readings := obj' :: st'.readings, last_obj := some obj' }
      | none => .ok { st' with readings := obj :: st'.readings, last_obj := some obj }

/-- The `for obj in self.all` loop of `bloodhound`. -/
def bloodhoundLoop (tzdb : TZDatabase) (effective_ats : List String) :
    BHState → List Dexcom → Except RunError BHState
  | st, [] => .ok st
  | st, obj :: rest =>
    match bloodhoundStep tzdb effective_ats st obj with
    | .error e => .error e
    | .ok st' => bloodhoundLoop tzdb effective_ats st' rest

/-- The data produced by a completed `bloodhound` run: the mutated
reading store (in its original order), the final in-memory
`offset_changes` list, and the record list written to
`bloodhound.json`. -/
structure BloodhoundResult where
  readings : List Dexcom
  offset_changes : List ChangeRecord
  persisted : List ChangeRecord
deriving Repr

/-- `DexcomJSON.bloodhound` (lines 282-342).  `store` is `self.all`,
`prior` the loaded `self.offset_changes`, `responses` the scripted
interactive answers, `tz_str` the (unused) argument of the Python
method. -/
def bloodhound (tzdb : TZDatabase) (store : List Dexcom) (prior : List ChangeRecord)
    (responses : List (String × String)) (tz_str : String) :
    Except RunError BloodhoundResult :=
  let effective_ats := prior.map (fun c => c.internal_time)
  match bloodhoundLoop tzdb effective_ats
      { readings := [], offset_changes := prior, responses := responses,
        initial_difference := none, current_difference := none,
        current_effective_at := "", offsets := none, last_obj := none } store with
  | .error e => .error e
  | .ok st =>
    .ok { readings := st.readings.reverse, offset_changes := st.offset_changes,
          persisted := persistChanges st.offset_changes }

/-- The raw clock difference of a reading (the value `diff['hours']`
takes when the engine classifies this reading), when both its
timestamps parse. -/
def diffOf (r : Dexcom) : Option Int :=
  match parse_datetime r.user_time, parse_datetime r.internal_time with
  | some du, some din => some (diff_hours du din)
  | _, _ => none

/- ===== concrete fixtures used by witnesses and counterexamples ===== -/

/-- A one-zone timezone database: `US/Eastern` at its standard offset
of minus five hours (-18000 seconds); every other name is unknown. -/
def tzdbEx : TZDatabase := fun name =>
  if name = "US/Eastern" then some (fun _ => (-18000 : Int)) else none

/-- A G4 Platinum sensor reading, display clock four hours behind the
internal clock. -/
def rEx1 : Dexcom :=
  { user_time := "2014-01-10 05:00:00", internal_time := "2014-01-10 09:00:00",
    device_gen := "G4Platinum", serial := "SM123", value := some 120,
    annotations := .pynone, subtype := "sensor" }

/-- An older reading from the same device with the same raw clock
difference. -/
def rEx2 : Dexcom :=
  { user_time := "2014-01-10 04:55:00", internal_time := "2014-01-10 08:55:00",
    device_gen := "G4Platinum", serial := "SM123", value := some 118,
    annotations := .pynone, subtype := "sensor" }

/-- A Seven Plus reading (millisecond-style timestamp), more recent
than `rEx2`, with a different serial. -/
def rEx3 : Dexcom :=
  { user_time := "2014-01-10 05:00:00", internal_time := "2014-01-10 09:00:00.000",
    device_gen := "SevenPlus", serial := "1234", value := some 120,
    annotations := .pynone, subtype := "sensor" }

/-- The `offset_changes` list of a completed run (`none` when the run
raised). -/
def run_offset_changes (r : Except RunError BloodhoundResult) : Option (List ChangeRecord) :=
  match r with
  | .ok res => some res.offset_changes
  | .error _ => none

/-- The reasons of the change records of a completed run. -/
def run_change_reasons (r : Except RunError BloodhoundResult) : Option (List String) :=
  match r with
  | .ok res => some (res.offset_changes.map (fun c => c.reason))
  | .error _ => none

/-- A concrete persisted change record keyed by a non-empty
`effective_at.internal_time`. -/
def cRec : ChangeRecord :=
  { display_offset := -5, internal_time := "2014-01-10T08:55:00",
    display_time := "2014-01-10T04:55:00", reason := "changed G4 Platinum device",
    subtype := "timezone offset", timezone := "US/Eastern", type := "meta" }

/-- A second record carrying the same `effective_at.internal_time` key
as `cRec` but a different offset. -/
def cRecDup : ChangeRecord :=
  { display_offset := -5, internal_time := "2014-01-10T08:55:00",
    display_time := "2014-01-10T04:55:00", reason := "inferred via bloodhound protocol",
    subtype := "timezone offset", timezone := "US/Eastern", type := "meta" }

/-- `rEx1` after `bloodhound` assigned the resolved offsets. -/
def rEnl : Dexcom :=
  { rEx1 with display_offset := some (-5), timezone := some "US/Eastern" }

/-- `rEnl` after `enlighten_datetime`. -/
def rEnlOut : Dexcom :=
  { rEnl with time := "2014-01-10T05:00:00-05:00" }

/-- The display and internal datetimes of a reading whose internal
clock is four and a half hours ahead of its display clock. -/
def dUc : DexDateTime := ⟨2014, 1, 10, 5, 0, 0⟩

def dIc : DexDateTime := ⟨2014, 1, 10, 9, 30, 0⟩

/-- A mid-run engine state: bootstrap already done (offset -5 hours,
US/Eastern), `rEx3` was the last processed reading, no boundary
active, one scripted response remaining. -/
def stW : BHState :=
  { readings := [], offset_changes := [], responses := [("US/Eastern", "n")],
    initial_difference := some (-4), current_difference := some (-4),
    current_effective_at := "", offsets := some (-5, "US/Eastern"),
    last_obj := some rEx3 }

/- ===== helper lemmas ===== -/

theorem pyStrLt_empty_right (s : String) : pyStrLt s "" = false := by
  show strLtB s.data "".data = false
  cases s.data <;> rfl

/- ===== the claims ===== -/

/-- C10: `bloodhound`'s observable output is independent of its
`tz_str` argument — given the same store, prior log and scripted
resolver responses, two runs differing only in `tz_str` return
identical results (the Python method never reads `tz_str`). -/
theorem C10_tz_str_independent (tzdb : TZDatabase) (store : List Dexcom)
    (prior : List ChangeRecord) (responses : List (String × String)) (t1 t2 : String) :
    bloodhound tzdb store prior responses t1 = bloodhound tzdb store prior responses t2 := rfl

/-- C5: a decimal-integer raw value in `[20, 600]` becomes the value
itself with the annotations attribute set to `None`; one outside the
range raises (the reading construction is rejected); `Low` becomes 39
with an out-of-range annotation at threshold 40; `High` becomes 401
with an out-of-range annotation at threshold 400. -/
theorem C5_set_value_ranges :
    (∀ s v, pyParseInt s = some v → 20 ≤ v ∧ v ≤ 600 →
        _set_value s = .ok (some v, .pynone)) ∧
    (∀ s v u i g sr, pyParseInt s = some v → (v < 20 ∨ 600 < v) →
        _set_value s = .error (.outOfRange v) ∧
        mkDexcomSensor u i g sr s = .error (.outOfRange v)) ∧
    _set_value "Low" = .ok (some 39, .anns [{ code := "bg/out-of-range", threshold := 40, value := "low" }]) ∧
    _set_value "High" = .ok (some 401, .anns [{ code := "bg/out-of-range", threshold := 400, value := "high" }]) := by
  refine ⟨?_, ?_, rfl, rfl⟩
  · intro s v hp hr
    simp [_set_value, hp, hr.1, hr.2]
  · intro s v u i g sr hp hr
    have hno : ¬(20 ≤ v ∧ v ≤ 600) := by omega
    have h1 : _set_value s = .error (.outOfRange v) := by
      simp [_set_value, hp, hno]
    exact ⟨h1, by simp [mkDexcomSensor, h1]⟩

/-- Witness for C5 at the concrete raw values "120" and "700". -/
theorem C5_witness :
    _set_value "120" = .ok (some 120, .pynone) ∧
    _set_value "700" = .error (.outOfRange 700) ∧
    mkDexcomSensor "2014-01-10 05:00:00" "2014-01-10 09:00:00" "G4Platinum" "SM123" "700"
      = .error (.outOfRange 700) := by
  have h2 := C5_set_value_ranges.2.1 "700" 700 "2014-01-10 05:00:00" "2014-01-10 09:00:00"
      "G4Platinum" "SM123" (by decide) (by decide)
  exact ⟨C5_set_value_ranges.1 "120" 120 (by decide) (by decide), h2.1, h2.2⟩

/-- C9: a raw value string that is neither a decimal integer nor
`Low`/`High` is not rejected: `_set_value` returns `None` and never
assigns the annotations attribute, and the constructed reading enters
the store with an empty value and no annotation. -/
theorem C9_malformed_value_passes (raw u i g sr : String)
    (hint : pyParseInt raw = none) (hlow : raw ≠ "Low") (hhigh : raw ≠ "High") :
    _set_value raw = .ok (none, .unset) ∧
    mkDexcomSensor u i g sr raw =
      .ok { user_time := u, internal_time := i, device_gen := g, serial := sr,
            value := none, annotations := .unset, subtype := "sensor" } := by
  have h1 : _set_value raw = .ok (none, .unset) := by
    simp [_set_value, hint, hlow, hhigh]
  exact ⟨h1, by simp [mkDexcomSensor, h1]⟩

/-- Witness for C9 at the concrete malformed raw value "12a". -/
theorem C9_witness :
    _set_value "12a" = .ok (none, .unset) ∧
    mkDexcomSensor "2014-01-10 05:00:00" "2014-01-10 09:00:00" "G4Platinum" "SM123" "12a" =
      .ok { user_time := "2014-01-10 05:00:00", internal_time := "2014-01-10 09:00:00",
            device_gen := "G4Platinum", serial := "SM123",
            value := none, annotations := .unset, subtype := "sensor" } :=
  C9_malformed_value_passes "12a" "2014-01-10 05:00:00" "2014-01-10 09:00:00" "G4Platinum"
    "SM123" (by decide) (by decide) (by decide)

/-- C8: `enlighten_datetime` is idempotent — a second application to
an already-annotated reading (same resolved offset and timezone
inputs) reproduces the reading, timestamp string included. -/
theorem C8_enlighten_idempotent (r r' : Dexcom)
    (h : enlighten_datetime r = .ok r') : enlighten_datetime r' = .ok r' := by
  unfold enlighten_datetime at h
  cases hoff : r.display_offset with
  | none => rw [hoff] at h; exact absurd h (by simp)
  | some off =>
    rw [hoff] at h
    cases hdu : parse_datetime r.user_time with
    | none => rw [hdu] at h; exact absurd h (by simp)
    | some du =>
      rw [hdu] at h
      injection h with h2
      subst h2
      simp [enlighten_datetime, hdu]

/-- Witness for C8 at a concrete resolved reading. -/
theorem C8_witness :
    enlighten_datetime rEnl = .ok rEnlOut ∧ enlighten_datetime rEnlOut = .ok rEnlOut := by
  have h : enlighten_datetime rEnl = .ok rEnlOut := by with_unfolding_all rfl
  exact ⟨h, C8_enlighten_idempotent rEnl rEnlOut h⟩

/-- C2 (divergence witness): on a fresh-offset request whose supplied
timezone name fails validation, the run does not continue with the
reading unresolved — `pytz.timezone` raises `UnknownTimeZoneError`,
nothing catches it, and the whole `bloodhound` run aborts. -/
theorem C2_invalid_timezone_aborts :
    _get_timezone tzdbEx [("Not/A Zone", "n")] rEx1 "input by user"
      = .error .unknownTimeZoneError ∧
    bloodhound tzdbEx [rEx1] [] [("Not/A Zone", "n")] "" = .error .unknownTimeZoneError :=
  ⟨rfl, rfl⟩

/-- C3 (counterexample): at a reading whose internal clock is 4.5
hours ahead of its display clock, the code's raw clock difference is
-4 (round-half-to-even of minus the within-day seconds over 3600),
while the spec's formula `round-half-away(-(display - internal))`
gives +5 — the sign convention and the rounding mode both differ. -/
theorem C3_counterexample :
    diff_hours dUc dIc = -4 ∧ spec_diff_hours dUc dIc = 5 ∧
    diff_hours dUc dIc ≠ spec_diff_hours dUc dIc := by
  refine ⟨by with_unfolding_all rfl, by with_unfolding_all rfl, by with_unfolding_all decide⟩

/-- C1 (counterexample): a two-reading single-device no-drift stream
with an empty prior log yields zero change records, not the one
(bootstrap) record the claim requires — the bootstrap call is made
with `notstart` unset and appends nothing. -/
theorem C1_counterexample :
    run_offset_changes (bloodhound tzdbEx [rEx1, rEx2] [] [("US/Eastern", "n")] "") = some [] ∧
    ([] : List ChangeRecord).length ≠ 1 :=
  ⟨by with_unfolding_all rfl, by decide⟩

/-- C4 (counterexample): a consecutive pair whose generations differ
(SevenPlus then, older, G4Platinum) and whose serials also differ is
classified by the serial-change branch first: the produced change
record's reason is `changed G4 Platinum device` (the code's
device-identity-change label), not `changed to Seven Plus device`
(its device-generation-change label) — so the generation-change
reason is not produced independently of serial equality. -/
theorem C4_counterexample :
    run_change_reasons
        (bloodhound tzdbEx [rEx3, rEx2] [] [("US/Eastern", "n"), ("US/Eastern", "n")] "")
      = some ["changed G4 Platinum device"] ∧
    "changed G4 Platinum device" ≠ "changed to Seven Plus device" :=
  ⟨rfl, by decide⟩

/-- C6 (counterexample): appending a change record whose
`effective_at.internal_time` duplicates the key of a record already in
the log does not fail — `_add_offset_change` appends it, the log then
holds two distinct records under the same key, and the pre-existing
record is still there (first in scan order). -/
theorem C6_counterexample :
    _add_offset_change tzdbEx [("US/Eastern", "n")] [cRec] (-5) rEx2
        "inferred via bloodhound protocol" true
      = .ok (some (-5, "US/Eastern"), [cRec, cRecDup], []) ∧
    cRecDup.internal_time = cRec.internal_time ∧ cRecDup ≠ cRec :=
  ⟨by with_unfolding_all rfl, rfl, by with_unfolding_all decide⟩

/- ===== more helper lemmas ===== -/

theorem rat_floor_eq_int_floor (q : Rat) : Rat.floor q = Int.floor q := by
  rw [Rat.floor_def', ← Rat.floor_def]

theorem roundHalfEven_eq (q : Rat) :
    roundHalfEven q =
      if q - ((Int.floor q : Int) : Rat) < 1/2 then Int.floor q
      else if 1/2 < q - ((Int.floor q : Int) : Rat) then Int.floor q + 1
      else if Int.floor q % 2 = 0 then Int.floor q else Int.floor q + 1 := by
  simp only [roundHalfEven, rat_floor_eq_int_floor]

theorem floor_neg_of_lt (q : Rat) (h : ((Int.floor q : Int) : Rat) < q) :
    Int.floor (-q) = -(Int.floor q) - 1 := by
  rw [Int.floor_eq_iff]
  constructor
  · push_cast
    linarith [Int.lt_floor_add_one q]
  · push_cast
    linarith

theorem roundHalfEven_lt_half (q : Rat) (h : q - ((Int.floor q : Int) : Rat) < 1/2) :
    roundHalfEven q = Int.floor q := by
  rw [roundHalfEven_eq, if_pos h]

theorem roundHalfEven_gt_half (q : Rat) (h : 1/2 < q - ((Int.floor q : Int) : Rat)) :
    roundHalfEven q = Int.floor q + 1 := by
  rw [roundHalfEven_eq, if_neg (by linarith), if_pos h]

theorem roundHalfEven_half_even (q : Rat) (h : q - ((Int.floor q : Int) : Rat) = 1/2)
    (hp : Int.floor q % 2 = 0) : roundHalfEven q = Int.floor q := by
  rw [roundHalfEven_eq, if_neg (by linarith), if_neg (by linarith), if_pos hp]

theorem roundHalfEven_half_odd (q : Rat) (h : q - ((Int.floor q : Int) : Rat) = 1/2)
    (hp : ¬ Int.floor q % 2 = 0) : roundHalfEven q = Int.floor q + 1 := by
  rw [roundHalfEven_eq, if_neg (by linarith), if_neg (by linarith), if_neg hp]

theorem roundHalfEven_neg (q : Rat) : roundHalfEven (-q) = -(roundHalfEven q) := by
  rcases lt_or_eq_of_le (Int.floor_le q) with hlt | heq
  · have hfn : Int.floor (-q) = -(Int.floor q) - 1 := floor_neg_of_lt q hlt
    have hfrac : -q - ((Int.floor (-q) : Int) : Rat) = 1 - (q - ((Int.floor q : Int) : Rat)) := by
      rw [hfn]
      push_cast
      ring
    rcases lt_trichotomy (q - ((Int.floor q : Int) : Rat)) (1/2) with h | h | h
    · rw [roundHalfEven_gt_half (-q) (by rw [hfrac]; linarith),
          roundHalfEven_lt_half q h, hfn]
      ring
    · by_cases hp : Int.floor q % 2 = 0
      · rw [roundHalfEven_half_odd (-q) (by rw [hfrac, h]; ring) (by rw [hfn]; omega),
            roundHalfEven_half_even q h hp, hfn]
        ring
      · rw [roundHalfEven_half_even (-q) (by rw [hfrac, h]; ring) (by rw [hfn]; omega),
            roundHalfEven_half_odd q h hp, hfn]
        ring
    · rw [roundHalfEven_lt_half (-q) (by rw [hfrac]; linarith),
          roundHalfEven_gt_half q h, hfn]
      ring
  · have hfn : Int.floor (-q) = -(Int.floor q) := by
      conv_lhs => rw [← heq]
      rw [← Int.cast_neg, Int.floor_intCast]
    have h1 : -q - ((Int.floor (-q) : Int) : Rat) = 0 := by
      rw [hfn]
      push_cast
      linarith [heq]
    have h2 : q - ((Int.floor q : Int) : Rat) = 0 := by linarith [heq]
    rw [roundHalfEven_lt_half (-q) (by rw [h1]; norm_num),
        roundHalfEven_lt_half q (by rw [h2]; norm_num), hfn]

theorem find?_append_left {α : Type} (l₁ l₂ : List α) (p : α → Bool) (c : α)
    (h : l₁.find? p = some c) : (l₁ ++ l₂).find? p = some c := by
  induction l₁ with
  | nil => simp [List.find?] at h
  | cons a t ih =>
    rw [List.cons_append]
    by_cases hpa : p a = true
    · rw [List.find?_cons_of_pos _ hpa] at h ⊢
      exact h
    · have hpa' : ¬ p a = true := hpa
      rw [List.find?_cons_of_neg _ hpa'] at h ⊢
      exact ih h

/-- C7: persisting the change log (stable sort by
`effective_at.internal_time`, reversed) and loading the persisted form
(the empty-key filter) preserves every record with a non-empty
`effective_at.internal_time` identically — same record, hence the
same (effectiveAt, offsetHours, timezoneName, reason) tuple. -/
theorem C7_persist_load_roundtrip (changes : List ChangeRecord) (c : ChangeRecord)
    (h : c.internal_time ≠ "") :
    c ∈ loadOffsetChanges (persistChanges changes) ↔ c ∈ changes := by
  simp [loadOffsetChanges, persistChanges, List.mem_filter, List.mem_reverse,
        (List.mergeSort_perm changes _).mem_iff, h]

/-- Witness for C7 at a concrete one-record log. -/
theorem C7_witness :
    cRec.internal_time ≠ "" ∧
    (cRec ∈ loadOffsetChanges (persistChanges [cRec]) ↔ cRec ∈ [cRec]) :=
  ⟨by decide, C7_persist_load_roundtrip [cRec] cRec (by decide)⟩

/-- C6 (amended): appending a change record performs no key-uniqueness
check — whenever the resolver succeeds, `_add_offset_change` with
`notstart` set appends its new record at the tail of the log whatever
keys the log already holds (so a duplicate key does enter the log),
while every existing record stays present and first-match lookup
still returns whatever it returned before (the existing record is
never overwritten). -/
theorem C6_append_unchecked (tzdb : TZDatabase) (name dst : String)
    (rest : List (String × String)) (log : List ChangeRecord) (dih : Int)
    (obj : Dexcom) (ct : String) (f : DexDateTime → Int) (du di : DexDateTime)
    (htz : tzdb name = some f)
    (hdu : parse_datetime obj.user_time = some du)
    (hdi : parse_datetime obj.internal_time = some di) :
    ∃ rec : ChangeRecord,
      _add_offset_change tzdb ((name, dst) :: rest) log dih obj ct true
        = .ok (some (resolver_offset f du dst, name), log ++ [rec], rest) ∧
      rec.internal_time = isoformat di ∧
      (∀ c ∈ log, c ∈ log ++ [rec]) ∧
      (∀ p : ChangeRecord → Bool, ∀ c, log.find? p = some c →
        (log ++ [rec]).find? p = some c) := by
  refine ⟨{ display_offset := resolver_offset f du dst, internal_time := isoformat di,
            display_time := isoformat du,
            reason := if dst = "y" then ct ++ "; shift to/from DST" else ct,
            subtype := "timezone offset", timezone := name, type := "meta" },
          ?_, rfl, ?_, ?_⟩
  · simp [_add_offset_change, _get_timezone, htz, hdu, hdi]
  · intro c hc
    exact List.mem_append_left _ hc
  · intro p c hfind
    exact find?_append_left log _ p c hfind

/-- Witness for C6's amended statement at a concrete duplicate-key
append. -/
theorem C6_witness :
    ∃ rec : ChangeRecord,
      _add_offset_change tzdbEx [("US/Eastern", "n")] [cRec] (-5) rEx2
          "inferred via bloodhound protocol" true
        = .ok (some (resolver_offset (fun _ => (-18000 : Int)) ⟨2014, 1, 10, 4, 55, 0⟩ "n",
                "US/Eastern"), [cRec] ++ [rec], []) ∧
      rec.internal_time = isoformat ⟨2014, 1, 10, 8, 55, 0⟩ ∧
      (∀ c ∈ [cRec], c ∈ [cRec] ++ [rec]) ∧
      (∀ p : ChangeRecord → Bool, ∀ c, [cRec].find? p = some c →
        ([cRec] ++ [rec]).find? p = some c) :=
  C6_append_unchecked tzdbEx "US/Eastern" "n" [] [cRec] (-5) rEx2
    "inferred via bloodhound protocol" (fun _ => (-18000 : Int)) ⟨2014, 1, 10, 4, 55, 0⟩
    ⟨2014, 1, 10, 8, 55, 0⟩ rfl rfl rfl

/-- C3 (amended): for a reading whose internal clock is `delta`
seconds ahead of its display clock with `0 ≤ delta < 86400`, the raw
clock difference used for drift classification is the NEGATION of
`delta` in hours rounded half-to-even (Python's `round`): the code
computes `round(-(internal - display).seconds / 3600)`, so the sign is
opposite to the spec's `round(-(display - internal))` formula and the
rounding is Python's banker's rounding, not half-away-from-zero. -/
theorem C3_code_diff_hours (u i : DexDateTime) (delta : Int)
    (hd : toSeconds i - toSeconds u = delta) (h0 : 0 ≤ delta) (h1 : delta < 86400) :
    diff_hours u i = -(roundHalfEven ((delta : Rat) / 3600)) := by
  show roundHalfEven (-(((Int.emod (toSeconds i - toSeconds u) 86400).toNat : Int) : Rat) / 3600)
      = -(roundHalfEven ((delta : Rat) / 3600))
  rw [hd]
  have h2 : Int.emod delta 86400 = delta := Int.emod_eq_of_lt h0 h1
  rw [h2]
  have h3 : ((delta.toNat : Int) : Rat) = ((delta : Int) : Rat) := by
    rw [Int.toNat_of_nonneg h0]
  rw [h3, neg_div]
  exact roundHalfEven_neg _

/-- Witness for C3's amended statement at the 4.5-hour example. -/
theorem C3_witness :
    toSeconds dIc - toSeconds dUc = 16200 ∧
    diff_hours dUc dIc = -(roundHalfEven ((16200 : Rat) / 3600)) :=
  ⟨by decide, C3_code_diff_hours dUc dIc 16200 (by decide) (by decide) (by decide)⟩

/-- C4 (amended): a consecutive pair whose device generations differ,
classified in the fresh-classification branch (no boundary match,
bootstrap already done, resolver succeeding), produces an appended
change record — but its reason is the device-generation-change label
`changed to Seven Plus device` only when NOT (the serials differ and
the current reading's generation is G4Platinum); in that shadowed case
the serial-change branch fires first and the reason is the
device-identity-change label `changed G4 Platinum device`.  So the
generation-change reason is not independent of serial equality. -/
theorem C4_generation_change (tzdb : TZDatabase) (effective_ats : List String)
    (st : BHState) (obj last : Dexcom) (din du : DexDateTime)
    (name dst : String) (rest : List (String × String)) (f : DexDateTime → Int) (d0 : Int)
    (hdi : parse_datetime obj.internal_time = some din)
    (hdu : parse_datetime obj.user_time = some du)
    (hmem : isoformat din ∉ effective_ats)
    (hlt : pyStrLt obj.internal_time st.current_effective_at = false)
    (hinit : st.initial_difference = some d0)
    (hlast : st.last_obj = some last)
    (hresp : st.responses = (name, dst) :: rest)
    (htz : tzdb name = some f)
    (hgen : obj.device_gen ≠ last.device_gen) :
    ∃ st' rec, bloodhoundStep tzdb effective_ats st obj = .ok st' ∧
      st'.offset_changes = st.offset_changes ++ [rec] ∧
      rec.reason =
        (if dst = "y"
         then (if obj.serial ≠ last.serial ∧ obj.device_gen = "G4Platinum"
               then "changed G4 Platinum device"
               else "changed to Seven Plus device") ++ "; shift to/from DST"
         else (if obj.serial ≠ last.serial ∧ obj.device_gen = "G4Platinum"
               then "changed G4 Platinum device"
               else "changed to Seven Plus device")) := by
  by_cases hid : obj.serial ≠ last.serial ∧ obj.device_gen = "G4Platinum"
  · refine ⟨{ st with
        readings := { obj with
          display_offset := some (resolver_offset f du dst),
          timezone := some name,
          time := isoWithOffset du (resolver_offset f du dst) } :: st.readings,
        offset_changes := st.offset_changes ++ [{
          display_offset := resolver_offset f du dst,
          internal_time := isoformat din, display_time := isoformat du,
          reason := if dst = "y" then "changed G4 Platinum device" ++ "; shift to/from DST"
                    else "changed G4 Platinum device",
          subtype := "timezone offset", timezone := name, type := "meta" }],
        responses := rest,
        current_difference := some (diff_hours du din),
        offsets := some (resolver_offset f du dst, name),
        last_obj := some { obj with
          display_offset := some (resolver_offset f du dst),
          timezone := some name,
          time := isoWithOffset du (resolver_offset f du dst) } },
      { display_offset := resolver_offset f du dst,
        internal_time := isoformat din, display_time := isoformat du,
        reason := if dst = "y" then "changed G4 Platinum device" ++ "; shift to/from DST"
                  else "changed G4 Platinum device",
        subtype := "timezone offset", timezone := name, type := "meta" },
      ?_, rfl, by simp [hid.1, hid.2]⟩
    simp [bloodhoundStep, _add_offset_change, _get_timezone, enlighten_datetime,
          hdi, hdu, hmem, hlt, hinit, hlast, hresp, htz, hid.1, hid.2]
  · refine ⟨{ st with
        readings := { obj with
          display_offset := some (resolver_offset f du dst),
          timezone := some name,
          time := isoWithOffset du (resolver_offset f du dst) } :: st.readings,
        offset_changes := st.offset_changes ++ [{
          display_offset := resolver_offset f du dst,
          internal_time := isoformat din, display_time := isoformat du,
          reason := if dst = "y" then "changed to Seven Plus device" ++ "; shift to/from DST"
                    else "changed to Seven Plus device",
          subtype := "timezone offset", timezone := name, type := "meta" }],
        responses := rest,
        current_difference := some (diff_hours du din),
        offsets := some (resolver_offset f du dst, name),
        last_obj := some { obj with
          display_offset := some (resolver_offset f du dst),
          timezone := some name,
          time := isoWithOffset du (resolver_offset f du dst) } },
      { display_offset := resolver_offset f du dst,
        internal_time := isoformat din, display_time := isoformat du,
        reason := if dst = "y" then "changed to Seven Plus device" ++ "; shift to/from DST"
                  else "changed to Seven Plus device",
        subtype := "timezone offset", timezone := name, type := "meta" },
      ?_, rfl, by simp [hid]⟩
    simp [bloodhoundStep, _add_offset_change, _get_timezone, enlighten_datetime,
          hdi, hdu, hmem, hlt, hinit, hlast, hresp, htz, hid, hgen]

/-- Witness for C4's amended statement at a concrete shadowed
generation change (serials differ, current reading G4Platinum). -/
theorem C4_witness :
    ∃ st' rec, bloodhoundStep tzdbEx [] stW rEx2 = .ok st' ∧
      st'.offset_changes = stW.offset_changes ++ [rec] ∧
      rec.reason =
        (if ("n" : String) = "y"
         then (if rEx2.serial ≠ rEx3.serial ∧ rEx2.device_gen = "G4Platinum"
               then "changed G4 Platinum device"
               else "changed to Seven Plus device") ++ "; shift to/from DST"
         else (if rEx2.serial ≠ rEx3.serial ∧ rEx2.device_gen = "G4Platinum"
               then "changed G4 Platinum device"
               else "changed to Seven Plus device")) :=
  C4_generation_change tzdbEx [] stW rEx2 rEx3 ⟨2014, 1, 10, 8, 55, 0⟩ ⟨2014, 1, 10, 4, 55, 0⟩
    "US/Eastern" "n" [] (fun _ => (-18000 : Int)) (-4)
    rfl rfl (by simp) rfl rfl rfl rfl rfl (by decide)

theorem diffOf_update (obj : Dexcom) (o : Rat) (tzn t : String) :
    diffOf { obj with
      display_offset := some o, timezone := some tzn, time := t } = diffOf obj := rfl

theorem chain'_replace_head {α : Type} (R : α → α → Prop) (a a' : α) (l : List α)
    (h : ∀ b, R a b → R a' b) (hc : List.Chain' R (a :: l)) : List.Chain' R (a' :: l) := by
  cases l with
  | nil => simp
  | cons b t =>
    rw [List.chain'_cons] at hc ⊢
    exact ⟨h b hc.1, hc.2⟩

/-- The bootstrap iteration of the loop (no prior boundaries, first
time through the classification branch): the resolver's offset is
adopted and assigned, but no change record is appended. -/
theorem bloodhoundStep_bootstrap (tzdb : TZDatabase) (st : BHState) (obj : Dexcom)
    (din du : DexDateTime) (name dst : String) (rest : List (String × String))
    (f : DexDateTime → Int)
    (hdi : parse_datetime obj.internal_time = some din)
    (hdu : parse_datetime obj.user_time = some du)
    (hcea : st.current_effective_at = "")
    (hinit : st.initial_difference = none)
    (hresp : st.responses = (name, dst) :: rest)
    (htz : tzdb name = some f) :
    bloodhoundStep tzdb [] st obj = .ok { st with
      readings := { obj with
        display_offset := some (resolver_offset f du dst),
        timezone := some name,
        time := isoWithOffset du (resolver_offset f du dst) } :: st.readings,
      responses := rest,
      initial_difference := some (diff_hours du din),
      current_difference := some (diff_hours du din),
      offsets := some (resolver_offset f du dst, name),
      last_obj := some { obj with
        display_offset := some (resolver_offset f du dst),
        timezone := some name,
        time := isoWithOffset du (resolver_offset f du dst) } } := by
  simp [bloodhoundStep, _add_offset_change, _get_timezone, enlighten_datetime,
        hdi, hdu, hcea, hinit, hresp, htz, pyStrLt_empty_right]

/-- A steady iteration: same serial, same generation, same raw clock
difference as the previously processed reading — no branch fires, the
carried offsets are assigned unchanged and nothing is appended. -/
theorem bloodhoundStep_steady (tzdb : TZDatabase) (st : BHState) (obj lo : Dexcom)
    (din du : DexDateTime) (o : Rat) (tzn : String) (cd d0 : Int)
    (hdi : parse_datetime obj.internal_time = some din)
    (hdu : parse_datetime obj.user_time = some du)
    (hcea : st.current_effective_at = "")
    (hoff : st.offsets = some (o, tzn))
    (hinit : st.initial_difference = some d0)
    (hcd : st.current_difference = some cd)
    (hlast : st.last_obj = some lo)
    (hserial : obj.serial = lo.serial)
    (hgen : obj.device_gen = lo.device_gen)
    (hdh : diff_hours du din = cd) :
    bloodhoundStep tzdb [] st obj = .ok { st with
      readings := { obj with
        display_offset := some o,
        timezone := some tzn,
        time := isoWithOffset du o } :: st.readings,
      last_obj := some { obj with
        display_offset := some o,
        timezone := some tzn,
        time := isoWithOffset du o } } := by
  simp [bloodhoundStep, enlighten_datetime, hdi, hdu, hcea, pyStrLt_empty_right,
        hinit, hlast, hcd, hoff, hserial, hgen, hdh]

/-- Steady-state loop invariant: once the bootstrap has fixed an
offset, a stream with constant identity and constant raw clock
difference appends nothing and assigns the carried offsets to every
remaining reading. -/
theorem bloodhoundLoop_steady (tzdb : TZDatabase) (o : Rat) (tzn g s : String)
    (cd d0 : Int) :
    ∀ (l : List Dexcom) (st : BHState) (lo : Dexcom),
    st.current_effective_at = "" →
    st.offsets = some (o, tzn) →
    st.initial_difference = some d0 →
    st.current_difference = some cd →
    st.last_obj = some lo →
    lo.serial = s →
    lo.device_gen = g →
    diffOf lo = some cd →
    (∀ r ∈ l, (parse_datetime r.internal_time).isSome ∧ (parse_datetime r.user_time).isSome) →
    (∀ r ∈ l, r.device_gen = g) →
    (∀ r ∈ l, r.serial = s) →
    List.Chain' (fun a b => diffOf a = diffOf b) (lo :: l) →
    (∀ r ∈ st.readings, r.display_offset = some o ∧ r.timezone = some tzn) →
    ∃ st', bloodhoundLoop tzdb [] st l = .ok st' ∧
      st'.offset_changes = st.offset_changes ∧
      (∀ r ∈ st'.readings, r.display_offset = some o ∧ r.timezone = some tzn) := by
  intro l
  induction l with
  | nil =>
    intro st lo _ _ _ _ _ _ _ _ _ _ _ _ hreads
    exact ⟨st, rfl, rfl, hreads⟩
  | cons obj l' ih =>
    intro st lo hcea hoff hinit hcd hlast hs hg hlod hparse hgen hser hchain hreads
    obtain ⟨hpi, hpu⟩ := hparse obj (by simp)
    obtain ⟨din, hdi⟩ := Option.isSome_iff_exists.mp hpi
    obtain ⟨du, hdu⟩ := Option.isSome_iff_exists.mp hpu
    have hRlo : diffOf lo = diffOf obj := (List.chain'_cons.mp hchain).1
    have hdobj : diffOf obj = some (diff_hours du din) := by
      simp [diffOf, hdu, hdi]
    have hdh : diff_hours du din = cd := by
      have : some (diff_hours du din) = some cd := by rw [← hdobj, ← hRlo, hlod]
      exact Option.some.inj this
    have hstep := bloodhoundStep_steady tzdb st obj lo din du o tzn cd d0
      hdi hdu hcea hoff hinit hcd hlast
      ((hser obj (by simp)).trans hs.symm)
      ((hgen obj (by simp)).trans hg.symm) hdh
    have hloop : bloodhoundLoop tzdb [] st (obj :: l') =
        bloodhoundLoop tzdb [] { st with
          readings := { obj with
            display_offset := some o,
            timezone := some tzn,
            time := isoWithOffset du o } :: st.readings,
          last_obj := some { obj with
            display_offset := some o,
            timezone := some tzn,
            time := isoWithOffset du o } } l' := by
      simp only [bloodhoundLoop]
      rw [hstep]
    rw [hloop]
    obtain ⟨st', hst', hchg, hrds⟩ := ih
      { st with
        readings := { obj with
          display_offset := some o,
          timezone := some tzn,
          time := isoWithOffset du o } :: st.readings,
        last_obj := some { obj with
          display_offset := some o,
          timezone := some tzn,
          time := isoWithOffset du o } }
      ({ obj with
        display_offset := some o,
        timezone := some tzn,
        time := isoWithOffset du o })
      hcea hoff hinit hcd rfl
      ((hser obj (by simp)))
      ((hgen obj (by simp)))
      (by rw [diffOf_update, ← hRlo, hlod])
      (fun r hr => hparse r (by simp [hr]))
      (fun r hr => hgen r (by simp [hr]))
      (fun r hr => hser r (by simp [hr]))
      (by
        refine chain'_replace_head _ obj _ l' (fun b hb => ?_) hchain.tail
        rw [diffOf_update]
        exact hb)
      (by
        intro r hr
        rcases List.mem_cons.mp hr with h | h
        · subst h
          exact ⟨rfl, rfl⟩
        · exact hreads r h)
    exact ⟨st', hst', hchg, hrds⟩

theorem bloodhoundLoop_cons_ok (tzdb : TZDatabase) (eff : List String)
    (st st1 st' : BHState) (obj : Dexcom) (l : List Dexcom)
    (h1 : bloodhoundStep tzdb eff st obj = .ok st1)
    (h2 : bloodhoundLoop tzdb eff st1 l = .ok st') :
    bloodhoundLoop tzdb eff st (obj :: l) = .ok st' := by
  simp only [bloodhoundLoop]
  rw [h1]
  exact h2

theorem bloodhound_eq_of_loop (tzdb : TZDatabase) (store : List Dexcom)
    (responses : List (String × String)) (t : String) (st' : BHState)
    (h : bloodhoundLoop tzdb []
        { readings := [], offset_changes := [], responses := responses,
          initial_difference := none, current_difference := none,
          current_effective_at := "", offsets := none, last_obj := none } store = .ok st') :
    bloodhound tzdb store [] responses t =
      .ok { readings := st'.readings.reverse, offset_changes := st'.offset_changes,
            persisted := persistChanges st'.offset_changes } := by
  unfold bloodhound
  simp only [List.map_nil]
  rw [h]

/-- C1 (amended): for a non-branching stream — one device generation,
one serial, raw clock difference constant between consecutive
readings — run against an empty prior log with a successful resolver
response, `bloodhound` appends NO change record at all (the bootstrap
offset is resolved and used but never recorded, so the persisted log
is empty too), and it assigns the same resolved (offset, timezone)
pair to every reading. -/
theorem C1_no_drift_uniform (tzdb : TZDatabase) (rs : List Dexcom) (g s name dst : String)
    (rest : List (String × String)) (f : DexDateTime → Int) (t : String)
    (hparse : ∀ r ∈ rs, (parse_datetime r.internal_time).isSome ∧
      (parse_datetime r.user_time).isSome)
    (hgen : ∀ r ∈ rs, r.device_gen = g)
    (hser : ∀ r ∈ rs, r.serial = s)
    (hchain : List.Chain' (fun a b => diffOf a = diffOf b) rs)
    (htz : tzdb name = some f) :
    ∃ res : BloodhoundResult,
      bloodhound tzdb rs [] ((name, dst) :: rest) t = .ok res ∧
      res.offset_changes = [] ∧
      res.persisted = [] ∧
      ∃ o tzn, ∀ r ∈ res.readings, r.display_offset = some o ∧ r.timezone = some tzn := by
  cases rs with
  | nil =>
    refine ⟨{ readings := [], offset_changes := [], persisted := persistChanges [] },
      rfl, rfl, ?_, 0, "", by simp⟩
    simp [persistChanges]
  | cons r0 rs' =>
    obtain ⟨hpi, hpu⟩ := hparse r0 (by simp)
    obtain ⟨din, hdi⟩ := Option.isSome_iff_exists.mp hpi
    obtain ⟨du, hdu⟩ := Option.isSome_iff_exists.mp hpu
    have hstep := bloodhoundStep_bootstrap tzdb
      { readings := [], offset_changes := [], responses := (name, dst) :: rest,
        initial_difference := none, current_difference := none,
        current_effective_at := "", offsets := none, last_obj := none }
      r0 din du name dst rest f hdi hdu rfl rfl rfl htz
    obtain ⟨st', hst', hchg, hrds⟩ := bloodhoundLoop_steady tzdb
      (resolver_offset f du dst) name g s (diff_hours du din) (diff_hours du din)
      rs'
      { readings := [{ r0 with
          display_offset := some (resolver_offset f du dst),
          timezone := some name,
          time := isoWithOffset du (resolver_offset f du dst) }],
        offset_changes := [], responses := rest,
        initial_difference := some (diff_hours du din),
        current_difference := some (diff_hours du din),
        current_effective_at := "", offsets := some (resolver_offset f du dst, name),
        last_obj := some { r0 with
          display_offset := some (resolver_offset f du dst),
          timezone := some name,
          time := isoWithOffset du (resolver_offset f du dst) } }
      ({ r0 with
        display_offset := some (resolver_offset f du dst),
        timezone := some name,
        time := isoWithOffset du (resolver_offset f du dst) })
      rfl rfl rfl rfl rfl
      (hser r0 (by simp))
      (hgen r0 (by simp))
      (by rw [diffOf_update]; simp [diffOf, hdu, hdi])
      (fun r hr => hparse r (by simp [hr]))
      (fun r hr => hgen r (by simp [hr]))
      (fun r hr => hser r (by simp [hr]))
      (by
        refine chain'_replace_head _ r0 _ rs' (fun b hb => ?_) hchain
        rw [diffOf_update]
        exact hb)
      (by
        intro r hr
        rcases List.mem_cons.mp hr with h | h
        · subst h
          exact ⟨rfl, rfl⟩
        · simp at h)
    refine ⟨{ readings := st'.readings.reverse, offset_changes := st'.offset_changes,
              persisted := persistChanges st'.offset_changes }, ?_, hchg, ?_, ?_⟩
    · show bloodhound tzdb (r0 :: rs') [] ((name, dst) :: rest) t = _
      have hstep' : bloodhoundStep tzdb []
          { readings := [], offset_changes := [], responses := (name, dst) :: rest,
            initial_difference := none, current_difference := none,
            current_effective_at := "", offsets := none, last_obj := none } r0 =
          .ok { readings := [{ r0 with
                  display_offset := some (resolver_offset f du dst),
                  timezone := some name,
                  time := isoWithOffset du (resolver_offset f du dst) }],
                offset_changes := [], responses := rest,
                initial_difference := some (diff_hours du din),
                current_difference := some (diff_hours du din),
                current_effective_at := "",
                offsets := some (resolver_offset f du dst, name),
                last_obj := some { r0 with
                  display_offset := some (resolver_offset f du dst),
                  timezone := some name,
                  time := isoWithOffset du (resolver_offset f du dst) } } := hstep
      exact bloodhound_eq_of_loop tzdb (r0 :: rs') ((name, dst) :: rest) t st'
        (bloodhoundLoop_cons_ok tzdb [] _ _ st' r0 rs' hstep' hst')
    · rw [hchg]
      simp [persistChanges]
    · refine ⟨resolver_offset f du dst, name, ?_⟩
      intro r hr
      exact hrds r (List.mem_reverse.mp hr)

/-- Witness for C1's amended statement at a concrete two-reading
no-drift stream. -/
theorem C1_witness :
    ∃ res : BloodhoundResult,
      bloodhound tzdbEx [rEx1, rEx2] [] [("US/Eastern", "n")] "" = .ok res ∧
      res.offset_changes = [] ∧
      res.persisted = [] ∧
      ∃ o tzn, ∀ r ∈ res.readings, r.display_offset = some o ∧ r.timezone = some tzn :=
  C1_no_drift_uniform tzdbEx [rEx1, rEx2] "G4Platinum" "SM123" "US/Eastern" "n" []
    (fun _ => (-18000 : Int)) ""
    (by decide)
    (by decide)
    (by decide)
    (by rw [List.chain'_pair]; with_unfolding_all rfl)
    rfl
